import Mathlib

/-!
Shallow embedding of `src/digit_interface/digit_handler.py` (class `DigitHandler`).

The Python module discovers DIGIT tactile sensors by running
`v4l2-ctl --list-devices`, parsing its two-level indented output into
name/paths groups, filtering groups whose name contains the substring
"DIGIT", and resolving hardware metadata for each group's primary device
path through sysfs attribute files.

Modelling choices:
* The filesystem is a structure `Fs` with `realpath`, `pathExists` and
  `readFile`; `readFile _ = none` models a raised exception during the read
  (e.g. permission denied), `pathExists` models `os.path.exists` (which
  never raises).
* The external tool invocation is `ToolResult`: `success stdout`
  (exit 0), `nonZeroExit` (`subprocess.CalledProcessError`, since
  `check=True`), or `missingExecutable` (`FileNotFoundError` when the
  binary is absent).
* Python exceptions that can escape a function are modelled with
  `Except PyError`; a `try/except` block that catches an exception class
  turns the corresponding error back into a value.
* Python's `'DIGIT' in s` substring test is `containsDIGIT`; `str.strip`
  is `pyStrip` (dropping ASCII whitespace from both ends); `str.splitlines`
  is `splitlines`, splitting on `'\n'` (Python also splits on rarer line
  boundaries, and unlike `splitlines` our model keeps a final empty line
  after a trailing newline; both differences only concern blank lines,
  which the parser skips).  All character-level functions are written
  over `List Char` so that concrete runs reduce in the kernel.
-/

/-- Result of `subprocess.run(['v4l2-ctl', '--list-devices'], ..., check=True)`. -/
inductive ToolResult where
  | success (stdout : String)
  | nonZeroExit
  | missingExecutable
deriving DecidableEq

/-- Python exceptions that can escape the functions we model. -/
inductive PyError where
  | fileNotFoundError
deriving DecidableEq

/-- The filesystem state visible to the handler. -/
structure Fs where
  realpath : String → String
  pathExists : String → Bool
  readFile : String → Option String

/-- A filesystem with no readable attribute files. -/
def trivialFs : Fs :=
  { realpath := id, pathExists := fun _ => false, readFile := fun _ => none }

/-- ASCII whitespace as recognised by Python's `str.strip()`. -/
def isPySpace (c : Char) : Bool :=
  c == ' ' || c == '\t' || c == '\n' || c == '\r' || c == '\x0B' || c == '\x0C'

/-- Python's `str.strip()` on a character list. -/
def pyStripChars (cs : List Char) : List Char :=
  (((cs.dropWhile isPySpace).reverse).dropWhile isPySpace).reverse

/-- Python's `str.strip()`. -/
def pyStrip (s : String) : String :=
  String.mk (pyStripChars s.toList)

/-- Python's `line.startswith("\t")`. -/
def startsWithTab (s : String) : Bool :=
  match s.toList with
  | '\t' :: _ => true
  | _ => false

/-- Split a character list at every newline. -/
def splitNl : List Char → List (List Char)
  | [] => [[]]
  | c :: cs =>
    let r := splitNl cs
    if c == '\n' then [] :: r
    else
      match r with
      | [] => [[c]]
      | l :: ls => (c :: l) :: ls

/-- Python's `str.splitlines()` (see the header comment for the two
blank-line-only differences). -/
def splitlines (s : String) : List String :=
  (splitNl s.toList).map String.mk

/-- Does the character list `s` start with the pattern `pat`? -/
def charsHavePre : List Char → List Char → Bool
  | [], _ => true
  | _ :: _, [] => false
  | p :: ps, c :: cs => p == c && charsHavePre ps cs

/-- Does the character list `s` contain `pat` as a contiguous run?
Models Python's `pat in s` substring test. -/
def charsContain : List Char → List Char → Bool
  | [], pat => pat.isEmpty
  | c :: cs, pat => charsHavePre pat (c :: cs) || charsContain cs pat

/-- Python's `'DIGIT' in s`. -/
def containsDIGIT (s : String) : Bool :=
  charsContain s.toList "DIGIT".toList

/-- Python's `os.path.basename`: the part after the last `/`. -/
def basename (s : String) : String :=
  String.mk (((s.toList.reverse).takeWhile (fun c => !(c == '/'))).reverse)

namespace DigitHandler

/-- The dict built by `_get_device_info_from_sysfs`: all four keys are always
set (initialised to "Unknown" before any I/O happens). -/
structure DeviceInfo where
  serial : String
  manufacturer : String
  model : String
  revision : String
deriving DecidableEq

/-- The initial `device_info` dict: every field defaults to "Unknown". -/
def defaultInfo : DeviceInfo :=
  { serial := "Unknown", manufacturer := "Unknown",
    model := "Unknown", revision := "Unknown" }

/-- `os.path.realpath(f"/sys/class/video4linux/{os.path.basename(device_path)}/device")` -/
def sysfsDevicePath (fs : Fs) (device_path : String) : String :=
  fs.realpath ("/sys/class/video4linux/" ++ basename device_path ++ "/device")

/-- `os.path.join(sysfs_path, "../" + attr)` for the attribute files read
one level above the resolved sysfs device directory. -/
def attrPath (fs : Fs) (device_path attr : String) : String :=
  sysfsDevicePath fs device_path ++ "/../" ++ attr

/-- One `if os.path.exists(p): open(p).read().strip()` step.
`none` models an exception raised while opening/reading the file;
`some none` means the file does not exist (the attribute is skipped);
`some (some v)` is the stripped file content. -/
def readAttr (fs : Fs) (path : String) : Option (Option String) :=
  if fs.pathExists path then
    match fs.readFile path with
    | some c => some (some (pyStrip c))
    | none => none
  else some none

/-- `device_info["serial"] = v` when the attribute was read. -/
def setSerial (d : DeviceInfo) : Option String → DeviceInfo
  | some v => { d with serial := v }
  | none => d

/-- `device_info["manufacturer"] = v` when the attribute was read. -/
def setManufacturer (d : DeviceInfo) : Option String → DeviceInfo
  | some v => { d with manufacturer := v }
  | none => d

/-- `device_info["model"] = v` when the attribute was read. -/
def setModel (d : DeviceInfo) : Option String → DeviceInfo
  | some v => { d with model := v }
  | none => d

/-- `device_info["revision"] = v` when the attribute was read. -/
def setRevision (d : DeviceInfo) : Option String → DeviceInfo
  | some v => { d with revision := v }
  | none => d

/-- `DigitHandler._get_device_info_from_sysfs`.  The four attribute files
`../serial`, `../manufacturer`, `../product`, `../bcdDevice` are probed in
order inside one `try` block; an exception during any read (outer `none`
from `readAttr`) aborts the remaining probes and the dict accumulated so
far is returned — the broad `except` only logs. -/
def _get_device_info_from_sysfs (fs : Fs) (device_path : String) : DeviceInfo :=
  match readAttr fs (attrPath fs device_path "serial") with
  | none => defaultInfo
  | some r1 =>
    match readAttr fs (attrPath fs device_path "manufacturer") with
    | none => setSerial defaultInfo r1
    | some r2 =>
      match readAttr fs (attrPath fs device_path "product") with
      | none => setManufacturer (setSerial defaultInfo r1) r2
      | some r3 =>
        match readAttr fs (attrPath fs device_path "bcdDevice") with
        | none => setModel (setManufacturer (setSerial defaultInfo r1) r2) r3
        | some r4 =>
          setRevision (setModel (setManufacturer (setSerial defaultInfo r1) r2) r3) r4

/-- One group of the `v4l2-ctl --list-devices` output: a header name and
the device paths listed under it. -/
structure VDevice where
  name : String
  paths : List String
deriving DecidableEq

/-- The dict produced by `DigitHandler._parse` for one device group. -/
structure DigitInfo where
  dev_name : Option String
  paths : List String
  manufacturer : String
  model : String
  revision : String
  serial : String
deriving DecidableEq

/-- `DigitHandler._parse`: `dev_name` is `paths[0]` if the list is
non-empty, else `None`; sysfs is queried only when that primary path is
truthy (non-`None` and non-empty string). -/
def _parse (fs : Fs) (device : VDevice) : DigitInfo :=
  match device.paths.head? with
  | some p =>
    if p = "" then
      { dev_name := some p, paths := device.paths, manufacturer := "Unknown",
        model := "Unknown", revision := "Unknown", serial := "Unknown" }
    else
      let s := _get_device_info_from_sysfs fs p
      { dev_name := some p, paths := device.paths, manufacturer := s.manufacturer,
        model := s.model, revision := s.revision, serial := s.serial }
  | none =>
    { dev_name := none, paths := device.paths, manufacturer := "Unknown",
      model := "Unknown", revision := "Unknown", serial := "Unknown" }

/-- Groups that are no longer current are emitted exactly when their name
contains "DIGIT" (the Python code appends the group object to `devices`
at open time and mutates it afterwards; emitting retained groups in open
order with their final paths is the same list). -/
def emitCur : Option VDevice → List VDevice
  | none => []
  | some d => if containsDIGIT d.name then [d] else []

/-- The effect of one indented path line: `if current_device and 'DIGIT' in
current_device['name']: current_device['paths'].append(line.strip())`. -/
def appendPath (cur : Option VDevice) (path : String) : Option VDevice :=
  match cur with
  | some d =>
    if containsDIGIT d.name then some (VDevice.mk d.name (d.paths ++ [path]))
    else some d
  | none => none

/-- The line loop of `DigitHandler.list_digits`: skip blank lines, open a
new current group at a non-indented line, append the stripped content of a
tab-indented line to the current group when its name contains "DIGIT". -/
def parseLoop (acc : List VDevice) (cur : Option VDevice) : List String → List VDevice
  | [] => acc ++ emitCur cur
  | line :: rest =>
    if pyStrip line = "" then
      parseLoop acc cur rest
    else if ¬ startsWithTab line then
      parseLoop (acc ++ emitCur cur) (some (VDevice.mk (pyStrip line) [])) rest
    else
      parseLoop acc (appendPath cur (pyStrip line)) rest

/-- The retained device groups parsed from the tool output. -/
def parseDevices (lines : List String) : List VDevice :=
  parseLoop [] none lines

/-- `DigitHandler.list_digits`.  `check=True` makes a non-zero exit raise
`CalledProcessError`, which the `except` clause catches and turns into `[]`;
a missing executable raises `FileNotFoundError`, which nothing catches. -/
def list_digits (tool : ToolResult) (fs : Fs) : Except PyError (List DigitInfo) :=
  match tool with
  | .success out => .ok ((parseDevices (splitlines out)).map (_parse fs))
  | .nonZeroExit => .ok []
  | .missingExecutable => .error .fileNotFoundError

/-- `DigitHandler.find_digit`: call `list_digits` fresh, return the first
record whose `serial` equals the query, else `None`. -/
def find_digit (tool : ToolResult) (fs : Fs) (serial : String) :
    Except PyError (Option DigitInfo) :=
  match list_digits tool fs with
  | .error e => .error e
  | .ok digits => .ok (digits.find? (fun d => d.serial == serial))

end DigitHandler

/-- Modelled from the spec: the upward-traversal sysfs serial resolver
(variant B of §4.2/§4.3) is not part of `src/digit_interface/digit_handler.py`
(that file only probes the fixed `../serial` sibling); per the spec it walks
parent directories from the resolved device link, testing for a `serial`
attribute file at each level, and stops at the first file found or when the
path cannot be shortened further.  The path is modelled as its list of
`/`-separated components; file contents are trimmed as in §4.3. -/
def findSerialUpwardRev (fs : Fs) : List String → String
  | [] => "Unknown"
  | c0 :: cs =>
    let p := String.intercalate "/" (c0 :: cs).reverse ++ "/serial"
    if fs.pathExists p then
      match fs.readFile p with
      | some c => pyStrip c
      | none => "Unknown"
    else findSerialUpwardRev fs cs

/-- The traversal itself: dropping the last component at each failed probe
is structural recursion on the reversed component list. -/
def findSerialUpward (fs : Fs) (comps : List String) : String :=
  findSerialUpwardRev fs comps.reverse

namespace DigitHandler

theorem setSerial_none (d : DeviceInfo) : setSerial d none = d := rfl

theorem setManufacturer_none (d : DeviceInfo) : setManufacturer d none = d := rfl

theorem setModel_none (d : DeviceInfo) : setModel d none = d := rfl

theorem setRevision_none (d : DeviceInfo) : setRevision d none = d := rfl

theorem setManufacturer_serial (d : DeviceInfo) (r : Option String) :
    (setManufacturer d r).serial = d.serial := by cases r <;> rfl

theorem setModel_serial (d : DeviceInfo) (r : Option String) :
    (setModel d r).serial = d.serial := by cases r <;> rfl

theorem setRevision_serial (d : DeviceInfo) (r : Option String) :
    (setRevision d r).serial = d.serial := by cases r <;> rfl

theorem setSerial_manufacturer (d : DeviceInfo) (r : Option String) :
    (setSerial d r).manufacturer = d.manufacturer := by cases r <;> rfl

theorem setModel_manufacturer (d : DeviceInfo) (r : Option String) :
    (setModel d r).manufacturer = d.manufacturer := by cases r <;> rfl

theorem setRevision_manufacturer (d : DeviceInfo) (r : Option String) :
    (setRevision d r).manufacturer = d.manufacturer := by cases r <;> rfl

theorem setSerial_model (d : DeviceInfo) (r : Option String) :
    (setSerial d r).model = d.model := by cases r <;> rfl

theorem setManufacturer_model (d : DeviceInfo) (r : Option String) :
    (setManufacturer d r).model = d.model := by cases r <;> rfl

theorem setRevision_model (d : DeviceInfo) (r : Option String) :
    (setRevision d r).model = d.model := by cases r <;> rfl

theorem setSerial_revision (d : DeviceInfo) (r : Option String) :
    (setSerial d r).revision = d.revision := by cases r <;> rfl

theorem setManufacturer_revision (d : DeviceInfo) (r : Option String) :
    (setManufacturer d r).revision = d.revision := by cases r <;> rfl

theorem setModel_revision (d : DeviceInfo) (r : Option String) :
    (setModel d r).revision = d.revision := by cases r <;> rfl

theorem readAttr_of_not_exists {fs : Fs} {path : String}
    (h : fs.pathExists path = false) : readAttr fs path = some none := by
  simp [readAttr, h]

theorem readAttr_of_read {fs : Fs} {path : String} {c : String}
    (he : fs.pathExists path = true) (hr : fs.readFile path = some c) :
    readAttr fs path = some (some (pyStrip c)) := by
  simp [readAttr, he, hr]

theorem readAttr_ne_none {fs : Fs} {path : String}
    (h : fs.pathExists path = true → fs.readFile path ≠ none) :
    readAttr fs path ≠ none := by
  unfold readAttr
  by_cases he : fs.pathExists path
  · cases hr : fs.readFile path with
    | none => exact absurd hr (h he)
    | some c => simp [he, hr]
  · simp [he]

theorem sysfs_serial_unres {fs : Fs} {p : String}
    (h : fs.pathExists (attrPath fs p "serial") = false) :
    (_get_device_info_from_sysfs fs p).serial = "Unknown" := by
  unfold _get_device_info_from_sysfs
  rw [readAttr_of_not_exists h]
  cases h2 : readAttr fs (attrPath fs p "manufacturer") with
  | none => rfl
  | some r2 =>
    cases h3 : readAttr fs (attrPath fs p "product") with
    | none => simp [setManufacturer_serial, setSerial_none, defaultInfo]
    | some r3 =>
      cases h4 : readAttr fs (attrPath fs p "bcdDevice") with
      | none =>
        simp [setModel_serial, setManufacturer_serial, setSerial_none, defaultInfo]
      | some r4 =>
        simp [setRevision_serial, setModel_serial, setManufacturer_serial,
          setSerial_none, defaultInfo]

theorem sysfs_manufacturer_unres {fs : Fs} {p : String}
    (h : fs.pathExists (attrPath fs p "manufacturer") = false) :
    (_get_device_info_from_sysfs fs p).manufacturer = "Unknown" := by
  unfold _get_device_info_from_sysfs
  cases h1 : readAttr fs (attrPath fs p "serial") with
  | none => rfl
  | some r1 =>
    rw [readAttr_of_not_exists h]
    cases h3 : readAttr fs (attrPath fs p "product") with
    | none => simp [setManufacturer_none, setSerial_manufacturer, defaultInfo]
    | some r3 =>
      cases h4 : readAttr fs (attrPath fs p "bcdDevice") with
      | none =>
        simp [setModel_manufacturer, setManufacturer_none, setSerial_manufacturer,
          defaultInfo]
      | some r4 =>
        simp [setRevision_manufacturer, setModel_manufacturer, setManufacturer_none,
          setSerial_manufacturer, defaultInfo]

theorem sysfs_model_unres {fs : Fs} {p : String}
    (h : fs.pathExists (attrPath fs p "product") = false) :
    (_get_device_info_from_sysfs fs p).model = "Unknown" := by
  unfold _get_device_info_from_sysfs
  cases h1 : readAttr fs (attrPath fs p "serial") with
  | none => rfl
  | some r1 =>
    cases h2 : readAttr fs (attrPath fs p "manufacturer") with
    | none => simp [setSerial_model, defaultInfo]
    | some r2 =>
      rw [readAttr_of_not_exists h]
      cases h4 : readAttr fs (attrPath fs p "bcdDevice") with
      | none =>
        simp [setModel_none, setManufacturer_model, setSerial_model, defaultInfo]
      | some r4 =>
        simp [setRevision_model, setModel_none, setManufacturer_model,
          setSerial_model, defaultInfo]

theorem sysfs_revision_unres {fs : Fs} {p : String}
    (h : fs.pathExists (attrPath fs p "bcdDevice") = false) :
    (_get_device_info_from_sysfs fs p).revision = "Unknown" := by
  unfold _get_device_info_from_sysfs
  cases h1 : readAttr fs (attrPath fs p "serial") with
  | none => rfl
  | some r1 =>
    cases h2 : readAttr fs (attrPath fs p "manufacturer") with
    | none => simp [setSerial_revision, defaultInfo]
    | some r2 =>
      cases h3 : readAttr fs (attrPath fs p "product") with
      | none =>
        simp [setManufacturer_revision, setSerial_revision, defaultInfo]
      | some r3 =>
        rw [readAttr_of_not_exists h]
        simp [setRevision_none, setModel_revision, setManufacturer_revision,
          setSerial_revision, defaultInfo]

theorem sysfs_serial_read {fs : Fs} {p c : String}
    (he : fs.pathExists (attrPath fs p "serial") = true)
    (hr : fs.readFile (attrPath fs p "serial") = some c) :
    (_get_device_info_from_sysfs fs p).serial = pyStrip c := by
  unfold _get_device_info_from_sysfs
  rw [readAttr_of_read he hr]
  cases h2 : readAttr fs (attrPath fs p "manufacturer") with
  | none => rfl
  | some r2 =>
    cases h3 : readAttr fs (attrPath fs p "product") with
    | none => simp [setManufacturer_serial, setSerial]
    | some r3 =>
      cases h4 : readAttr fs (attrPath fs p "bcdDevice") with
      | none => simp [setModel_serial, setManufacturer_serial, setSerial]
      | some r4 =>
        simp [setRevision_serial, setModel_serial, setManufacturer_serial, setSerial]

theorem sysfs_manufacturer_read {fs : Fs} {p c : String}
    (hs : fs.pathExists (attrPath fs p "serial") = true →
      fs.readFile (attrPath fs p "serial") ≠ none)
    (he : fs.pathExists (attrPath fs p "manufacturer") = true)
    (hr : fs.readFile (attrPath fs p "manufacturer") = some c) :
    (_get_device_info_from_sysfs fs p).manufacturer = pyStrip c := by
  unfold _get_device_info_from_sysfs
  cases h1 : readAttr fs (attrPath fs p "serial") with
  | none => exact absurd h1 (readAttr_ne_none hs)
  | some r1 =>
    rw [readAttr_of_read he hr]
    cases h3 : readAttr fs (attrPath fs p "product") with
    | none => simp [setManufacturer]
    | some r3 =>
      cases h4 : readAttr fs (attrPath fs p "bcdDevice") with
      | none => simp [setModel_manufacturer, setManufacturer]
      | some r4 => simp [setRevision_manufacturer, setModel_manufacturer, setManufacturer]

theorem sysfs_model_read {fs : Fs} {p c : String}
    (hs : fs.pathExists (attrPath fs p "serial") = true →
      fs.readFile (attrPath fs p "serial") ≠ none)
    (hm : fs.pathExists (attrPath fs p "manufacturer") = true →
      fs.readFile (attrPath fs p "manufacturer") ≠ none)
    (he : fs.pathExists (attrPath fs p "product") = true)
    (hr : fs.readFile (attrPath fs p "product") = some c) :
    (_get_device_info_from_sysfs fs p).model = pyStrip c := by
  unfold _get_device_info_from_sysfs
  cases h1 : readAttr fs (attrPath fs p "serial") with
  | none => exact absurd h1 (readAttr_ne_none hs)
  | some r1 =>
    cases h2 : readAttr fs (attrPath fs p "manufacturer") with
    | none => exact absurd h2 (readAttr_ne_none hm)
    | some r2 =>
      rw [readAttr_of_read he hr]
      cases h4 : readAttr fs (attrPath fs p "bcdDevice") with
      | none => simp [setModel]
      | some r4 => simp [setRevision_model, setModel]

theorem sysfs_revision_read {fs : Fs} {p c : String}
    (hs : fs.pathExists (attrPath fs p "serial") = true →
      fs.readFile (attrPath fs p "serial") ≠ none)
    (hm : fs.pathExists (attrPath fs p "manufacturer") = true →
      fs.readFile (attrPath fs p "manufacturer") ≠ none)
    (hp : fs.pathExists (attrPath fs p "product") = true →
      fs.readFile (attrPath fs p "product") ≠ none)
    (he : fs.pathExists (attrPath fs p "bcdDevice") = true)
    (hr : fs.readFile (attrPath fs p "bcdDevice") = some c) :
    (_get_device_info_from_sysfs fs p).revision = pyStrip c := by
  unfold _get_device_info_from_sysfs
  cases h1 : readAttr fs (attrPath fs p "serial") with
  | none => exact absurd h1 (readAttr_ne_none hs)
  | some r1 =>
    cases h2 : readAttr fs (attrPath fs p "manufacturer") with
    | none => exact absurd h2 (readAttr_ne_none hm)
    | some r2 =>
      cases h3 : readAttr fs (attrPath fs p "product") with
      | none => exact absurd h3 (readAttr_ne_none hp)
      | some r3 =>
        rw [readAttr_of_read he hr]
        simp [setRevision]

theorem readAttr_of_raise {fs : Fs} {path : String}
    (he : fs.pathExists path = true) (hr : fs.readFile path = none) :
    readAttr fs path = none := by
  simp [readAttr, he, hr]

theorem sysfs_eq_of_serial_raise {fs : Fs} {p : String}
    (he : fs.pathExists (attrPath fs p "serial") = true)
    (hr : fs.readFile (attrPath fs p "serial") = none) :
    _get_device_info_from_sysfs fs p = defaultInfo := by
  unfold _get_device_info_from_sysfs
  rw [readAttr_of_raise he hr]

theorem sysfs_eq_of_manufacturer_raise {fs : Fs} {p : String} {r1 : Option String}
    (h1 : readAttr fs (attrPath fs p "serial") = some r1)
    (he : fs.pathExists (attrPath fs p "manufacturer") = true)
    (hr : fs.readFile (attrPath fs p "manufacturer") = none) :
    _get_device_info_from_sysfs fs p = setSerial defaultInfo r1 := by
  unfold _get_device_info_from_sysfs
  rw [h1, readAttr_of_raise he hr]

theorem sysfs_eq_of_product_raise {fs : Fs} {p : String} {r1 r2 : Option String}
    (h1 : readAttr fs (attrPath fs p "serial") = some r1)
    (h2 : readAttr fs (attrPath fs p "manufacturer") = some r2)
    (he : fs.pathExists (attrPath fs p "product") = true)
    (hr : fs.readFile (attrPath fs p "product") = none) :
    _get_device_info_from_sysfs fs p = setManufacturer (setSerial defaultInfo r1) r2 := by
  unfold _get_device_info_from_sysfs
  rw [h1, h2, readAttr_of_raise he hr]

theorem sysfs_eq_of_bcd_raise {fs : Fs} {p : String} {r1 r2 r3 : Option String}
    (h1 : readAttr fs (attrPath fs p "serial") = some r1)
    (h2 : readAttr fs (attrPath fs p "manufacturer") = some r2)
    (h3 : readAttr fs (attrPath fs p "product") = some r3)
    (he : fs.pathExists (attrPath fs p "bcdDevice") = true)
    (hr : fs.readFile (attrPath fs p "bcdDevice") = none) :
    _get_device_info_from_sysfs fs p =
      setModel (setManufacturer (setSerial defaultInfo r1) r2) r3 := by
  unfold _get_device_info_from_sysfs
  rw [h1, h2, h3, readAttr_of_raise he hr]

theorem sysfs_serial_cases (fs : Fs) (p : String) :
    (_get_device_info_from_sysfs fs p).serial = "Unknown" ∨
    (fs.pathExists (attrPath fs p "serial") = true ∧
      ∃ c, fs.readFile (attrPath fs p "serial") = some c ∧
        (_get_device_info_from_sysfs fs p).serial = pyStrip c) := by
  by_cases he : fs.pathExists (attrPath fs p "serial") = true
  · cases hr : fs.readFile (attrPath fs p "serial") with
    | none =>
      left
      rw [sysfs_eq_of_serial_raise he hr]
      rfl
    | some c =>
      right
      exact ⟨he, c, rfl, sysfs_serial_read he hr⟩
  · left
    exact sysfs_serial_unres (by simpa using he)

theorem sysfs_manufacturer_cases (fs : Fs) (p : String) :
    (_get_device_info_from_sysfs fs p).manufacturer = "Unknown" ∨
    ((fs.pathExists (attrPath fs p "serial") = true →
        fs.readFile (attrPath fs p "serial") ≠ none) ∧
      fs.pathExists (attrPath fs p "manufacturer") = true ∧
      ∃ c, fs.readFile (attrPath fs p "manufacturer") = some c ∧
        (_get_device_info_from_sysfs fs p).manufacturer = pyStrip c) := by
  by_cases hsr : fs.pathExists (attrPath fs p "serial") = true ∧
      fs.readFile (attrPath fs p "serial") = none
  · left
    rw [sysfs_eq_of_serial_raise hsr.1 hsr.2]
    rfl
  · have hs : fs.pathExists (attrPath fs p "serial") = true →
        fs.readFile (attrPath fs p "serial") ≠ none :=
      fun a b => hsr ⟨a, b⟩
    by_cases he : fs.pathExists (attrPath fs p "manufacturer") = true
    · cases hr : fs.readFile (attrPath fs p "manufacturer") with
      | none =>
        left
        cases h1 : readAttr fs (attrPath fs p "serial") with
        | none => exact absurd h1 (readAttr_ne_none hs)
        | some r1 =>
          rw [sysfs_eq_of_manufacturer_raise h1 he hr, setSerial_manufacturer]
          rfl
      | some c =>
        right
        exact ⟨hs, he, c, rfl, sysfs_manufacturer_read hs he hr⟩
    · left
      exact sysfs_manufacturer_unres (by simpa using he)

theorem sysfs_model_cases (fs : Fs) (p : String) :
    (_get_device_info_from_sysfs fs p).model = "Unknown" ∨
    ((fs.pathExists (attrPath fs p "serial") = true →
        fs.readFile (attrPath fs p "serial") ≠ none) ∧
      (fs.pathExists (attrPath fs p "manufacturer") = true →
        fs.readFile (attrPath fs p "manufacturer") ≠ none) ∧
      fs.pathExists (attrPath fs p "product") = true ∧
      ∃ c, fs.readFile (attrPath fs p "product") = some c ∧
        (_get_device_info_from_sysfs fs p).model = pyStrip c) := by
  by_cases hsr : fs.pathExists (attrPath fs p "serial") = true ∧
      fs.readFile (attrPath fs p "serial") = none
  · left
    rw [sysfs_eq_of_serial_raise hsr.1 hsr.2]
    rfl
  · have hs : fs.pathExists (attrPath fs p "serial") = true →
        fs.readFile (attrPath fs p "serial") ≠ none :=
      fun a b => hsr ⟨a, b⟩
    by_cases hmr : fs.pathExists (attrPath fs p "manufacturer") = true ∧
        fs.readFile (attrPath fs p "manufacturer") = none
    · left
      cases h1 : readAttr fs (attrPath fs p "serial") with
      | none => exact absurd h1 (readAttr_ne_none hs)
      | some r1 =>
        rw [sysfs_eq_of_manufacturer_raise h1 hmr.1 hmr.2, setSerial_model]
        rfl
    · have hm : fs.pathExists (attrPath fs p "manufacturer") = true →
          fs.readFile (attrPath fs p "manufacturer") ≠ none :=
        fun a b => hmr ⟨a, b⟩
      by_cases he : fs.pathExists (attrPath fs p "product") = true
      · cases hr : fs.readFile (attrPath fs p "product") with
        | none =>
          left
          cases h1 : readAttr fs (attrPath fs p "serial") with
          | none => exact absurd h1 (readAttr_ne_none hs)
          | some r1 =>
            cases h2 : readAttr fs (attrPath fs p "manufacturer") with
            | none => exact absurd h2 (readAttr_ne_none hm)
            | some r2 =>
              rw [sysfs_eq_of_product_raise h1 h2 he hr,
                setManufacturer_model, setSerial_model]
              rfl
        | some c =>
          right
          exact ⟨hs, hm, he, c, rfl, sysfs_model_read hs hm he hr⟩
      · left
        exact sysfs_model_unres (by simpa using he)

theorem sysfs_revision_cases (fs : Fs) (p : String) :
    (_get_device_info_from_sysfs fs p).revision = "Unknown" ∨
    ((fs.pathExists (attrPath fs p "serial") = true →
        fs.readFile (attrPath fs p "serial") ≠ none) ∧
      (fs.pathExists (attrPath fs p "manufacturer") = true →
        fs.readFile (attrPath fs p "manufacturer") ≠ none) ∧
      (fs.pathExists (attrPath fs p "product") = true →
        fs.readFile (attrPath fs p "product") ≠ none) ∧
      fs.pathExists (attrPath fs p "bcdDevice") = true ∧
      ∃ c, fs.readFile (attrPath fs p "bcdDevice") = some c ∧
        (_get_device_info_from_sysfs fs p).revision = pyStrip c) := by
  by_cases hsr : fs.pathExists (attrPath fs p "serial") = true ∧
      fs.readFile (attrPath fs p "serial") = none
  · left
    rw [sysfs_eq_of_serial_raise hsr.1 hsr.2]
    rfl
  · have hs : fs.pathExists (attrPath fs p "serial") = true →
        fs.readFile (attrPath fs p "serial") ≠ none :=
      fun a b => hsr ⟨a, b⟩
    by_cases hmr : fs.pathExists (attrPath fs p "manufacturer") = true ∧
        fs.readFile (attrPath fs p "manufacturer") = none
    · left
      cases h1 : readAttr fs (attrPath fs p "serial") with
      | none => exact absurd h1 (readAttr_ne_none hs)
      | some r1 =>
        rw [sysfs_eq_of_manufacturer_raise h1 hmr.1 hmr.2, setSerial_revision]
        rfl
    · have hm : fs.pathExists (attrPath fs p "manufacturer") = true →
          fs.readFile (attrPath fs p "manufacturer") ≠ none :=
        fun a b => hmr ⟨a, b⟩
      by_cases hpr : fs.pathExists (attrPath fs p "product") = true ∧
          fs.readFile (attrPath fs p "product") = none
      · left
        cases h1 : readAttr fs (attrPath fs p "serial") with
        | none => exact absurd h1 (readAttr_ne_none hs)
        | some r1 =>
          cases h2 : readAttr fs (attrPath fs p "manufacturer") with
          | none => exact absurd h2 (readAttr_ne_none hm)
          | some r2 =>
            rw [sysfs_eq_of_product_raise h1 h2 hpr.1 hpr.2,
              setManufacturer_revision, setSerial_revision]
            rfl
      · have hp : fs.pathExists (attrPath fs p "product") = true →
            fs.readFile (attrPath fs p "product") ≠ none :=
          fun a b => hpr ⟨a, b⟩
        by_cases he : fs.pathExists (attrPath fs p "bcdDevice") = true
        · cases hr : fs.readFile (attrPath fs p "bcdDevice") with
          | none =>
            left
            cases h1 : readAttr fs (attrPath fs p "serial") with
            | none => exact absurd h1 (readAttr_ne_none hs)
            | some r1 =>
              cases h2 : readAttr fs (attrPath fs p "manufacturer") with
              | none => exact absurd h2 (readAttr_ne_none hm)
              | some r2 =>
                cases h3 : readAttr fs (attrPath fs p "product") with
                | none => exact absurd h3 (readAttr_ne_none hp)
                | some r3 =>
                  rw [sysfs_eq_of_bcd_raise h1 h2 h3 he hr, setModel_revision,
                    setManufacturer_revision, setSerial_revision]
                  rfl
          | some c =>
            right
            exact ⟨hs, hm, hp, he, c, rfl, sysfs_revision_read hs hm hp he hr⟩
        · left
          exact sysfs_revision_unres (by simpa using he)

theorem mem_emitCur {g : VDevice} {cur : Option VDevice} (h : g ∈ emitCur cur) :
    containsDIGIT g.name = true := by
  cases cur with
  | none => simp [emitCur] at h
  | some d =>
    by_cases hc : containsDIGIT d.name
    · simp [emitCur, hc] at h
      subst h
      exact hc
    · simp [emitCur, hc] at h

theorem appendPath_none (path : String) : appendPath none path = none := rfl

theorem mem_appendPath {cur : Option VDevice} {path : String} {d' : VDevice}
    (h : appendPath cur path = some d') :
    ∃ d, cur = some d ∧
      (d' = d ∨ (containsDIGIT d.name = true ∧ d' = VDevice.mk d.name (d.paths ++ [path]))) := by
  cases cur with
  | none => simp [appendPath] at h
  | some d =>
    refine ⟨d, rfl, ?_⟩
    by_cases hc : containsDIGIT d.name
    · simp [appendPath, hc] at h
      exact Or.inr ⟨hc, h.symm⟩
    · simp [appendPath, hc] at h
      exact Or.inl h.symm

theorem parseLoop_names (lines : List String) :
    ∀ acc cur, (∀ g ∈ acc, containsDIGIT g.name = true) →
      ∀ g ∈ parseLoop acc cur lines, containsDIGIT g.name = true := by
  induction lines with
  | nil =>
    intro acc cur hacc g hg
    rw [parseLoop] at hg
    rcases List.mem_append.mp hg with h | h
    · exact hacc g h
    · exact mem_emitCur h
  | cons line rest ih =>
    intro acc cur hacc g hg
    rw [parseLoop] at hg
    by_cases hb : pyStrip line = ""
    · rw [if_pos hb] at hg
      exact ih acc cur hacc g hg
    · rw [if_neg hb] at hg
      by_cases ht : startsWithTab line
      · simp only [ht, not_true_eq_false, if_false] at hg
        exact ih acc _ hacc g hg
      · simp only [ht, not_false_eq_true, if_true] at hg
        refine ih _ _ ?_ g hg
        intro g' hg'
        rcases List.mem_append.mp hg' with h | h
        · exact hacc g' h
        · exact mem_emitCur h

theorem parseLoop_wf (lines : List String) :
    ∀ acc cur,
      (∀ g ∈ acc, g.name ≠ "" ∧ ∀ p ∈ g.paths, p ≠ "") →
      (∀ d, cur = some d → d.name ≠ "" ∧ ∀ p ∈ d.paths, p ≠ "") →
      ∀ g ∈ parseLoop acc cur lines, g.name ≠ "" ∧ ∀ p ∈ g.paths, p ≠ "" := by
  induction lines with
  | nil =>
    intro acc cur hacc hcur g hg
    rw [parseLoop] at hg
    rcases List.mem_append.mp hg with h | h
    · exact hacc g h
    · cases cur with
      | none => simp [emitCur] at h
      | some d =>
        by_cases hc : containsDIGIT d.name
        · simp [emitCur, hc] at h
          rw [h]
          exact hcur d rfl
        · simp [emitCur, hc] at h
  | cons line rest ih =>
    intro acc cur hacc hcur g hg
    rw [parseLoop] at hg
    by_cases hb : pyStrip line = ""
    · rw [if_pos hb] at hg
      exact ih acc cur hacc hcur g hg
    · rw [if_neg hb] at hg
      by_cases ht : startsWithTab line
      · simp only [ht, not_true_eq_false, if_false] at hg
        refine ih acc _ hacc ?_ g hg
        intro d' hd'
        rcases mem_appendPath hd' with ⟨d, hd, hcase⟩
        rcases hcase with rfl | ⟨_, rfl⟩
        · exact hcur d' hd
        · refine ⟨(hcur d hd).1, ?_⟩
          intro p hp
          rcases List.mem_append.mp hp with h | h
          · exact (hcur d hd).2 p h
          · rcases List.mem_singleton.mp h with rfl
            exact hb
      · simp only [ht, not_false_eq_true, if_true] at hg
        refine ih _ _ ?_ ?_ g hg
        · intro g' hg'
          rcases List.mem_append.mp hg' with h | h
          · exact hacc g' h
          · cases cur with
            | none => simp [emitCur] at h
            | some d =>
              by_cases hc : containsDIGIT d.name
              · simp [emitCur, hc] at h
                rw [h]
                exact hcur d rfl
              · simp [emitCur, hc] at h
        · intro d' hd'
          cases hd'
          exact ⟨hb, by simp⟩

theorem parseLoop_skip_nonretained (rest : List String) :
    ∀ ls acc (d : VDevice), containsDIGIT d.name = false →
      (∀ l ∈ ls, startsWithTab l = true ∧ pyStrip l ≠ "") →
      parseLoop acc (some d) (ls ++ rest) = parseLoop acc (some d) rest := by
  intro ls
  induction ls with
  | nil => intro acc d _ _; rfl
  | cons l ls ih =>
    intro acc d hd hls
    have hl := hls l (List.mem_cons_self l ls)
    rw [List.cons_append, parseLoop, if_neg hl.2]
    simp only [hl.1, not_true_eq_false, if_false, appendPath, hd, Bool.false_eq_true]
    exact ih acc d hd (fun l' hl' => hls l' (List.mem_cons_of_mem l hl'))

theorem parseLoop_skip_indented_no_cur (rest : List String) :
    ∀ ls acc, (∀ l ∈ ls, pyStrip l = "" ∨ startsWithTab l = true) →
      parseLoop acc none (ls ++ rest) = parseLoop acc none rest := by
  intro ls
  induction ls with
  | nil => intro acc _; rfl
  | cons l ls ih =>
    intro acc hls
    have hl := hls l (List.mem_cons_self l ls)
    rw [List.cons_append, parseLoop]
    rcases hl with hb | ht
    · rw [if_pos hb]
      exact ih acc (fun l' hl' => hls l' (List.mem_cons_of_mem l hl'))
    · by_cases hb : pyStrip l = ""
      · rw [if_pos hb]
        exact ih acc (fun l' hl' => hls l' (List.mem_cons_of_mem l hl'))
      · rw [if_neg hb]
        simp only [ht, not_true_eq_false, if_false, appendPath_none]
        exact ih acc (fun l' hl' => hls l' (List.mem_cons_of_mem l hl'))

theorem find?_append_first {α : Type} (p : α → Bool) :
    ∀ (l1 : List α) (d : α) (l2 : List α), p d = true → (∀ x ∈ l1, p x = false) →
      (l1 ++ d :: l2).find? p = some d := by
  intro l1
  induction l1 with
  | nil => intro d l2 hd _; simpa using List.find?_cons_of_pos _ hd
  | cons a l1 ih =>
    intro a2 l2 hd hl1
    rw [List.cons_append, List.find?_cons_of_neg]
    · exact ih a2 l2 hd (fun x hx => hl1 x (List.mem_cons_of_mem a hx))
    · simp [hl1 a (List.mem_cons_self a l1)]

end DigitHandler

open DigitHandler

/-- Claim C1 is false as stated: a missing executable raises
`FileNotFoundError` out of `list_digits` (only `CalledProcessError`, the
non-zero-exit signal, is caught), so the call does not return an empty
sequence in that case. -/
theorem claim_C1_counterexample :
    list_digits ToolResult.missingExecutable trivialFs =
      Except.error PyError.fileNotFoundError ∧
    ¬ list_digits ToolResult.missingExecutable trivialFs = Except.ok [] := by
  constructor
  · rfl
  · intro h
    simp [list_digits] at h

/-- Claim C1, amended: if the external tool exits with a non-zero status,
`list_digits` returns an empty sequence without propagating an error; but
if the executable is missing, the `FileNotFoundError` propagates to the
caller. -/
theorem claim_C1 : ∀ fs : Fs,
    list_digits ToolResult.nonZeroExit fs = Except.ok [] ∧
    list_digits ToolResult.missingExecutable fs =
      Except.error PyError.fileNotFoundError :=
  fun _ => ⟨rfl, rfl⟩

/-- Claim C2: `find_digit` runs `list_digits` afresh and linearly scans its
result: it returns the first record (in discovery order) whose `serial`
equals the query exactly, and an absent result (`None`) when no record's
serial equals the query — in particular when discovery returned `[]`. -/
theorem claim_C2 : ∀ (tool : ToolResult) (fs : Fs) (l : List DigitInfo) (s : String),
    list_digits tool fs = Except.ok l →
    (find_digit tool fs s = Except.ok (l.find? (fun d => d.serial == s)) ∧
     (∀ l1 d l2, l = l1 ++ d :: l2 → d.serial = s → (∀ d' ∈ l1, d'.serial ≠ s) →
        l.find? (fun d => d.serial == s) = some d) ∧
     ((∀ d ∈ l, d.serial ≠ s) → l.find? (fun d => d.serial == s) = none)) := by
  intro tool fs l s h
  refine ⟨?_, ?_, ?_⟩
  · unfold find_digit
    rw [h]
  · intro l1 d l2 hl hd hl1
    rw [hl]
    exact find?_append_first _ l1 d l2 (by simp [hd])
      (fun x hx => by simp [hl1 x hx])
  · intro hall
    rw [List.find?_eq_none]
    intro x hx
    simp [hall x hx]

/-- Concrete run of `claim_C2`: one discovered record with a resolved
serial `D00001`; `find_digit "D00001"` returns exactly that record. -/
theorem claim_C2_witness :
    find_digit (ToolResult.success "DIGIT Cam\n\t/dev/video0")
      { realpath := id,
        pathExists := fun p => p == "/sys/class/video4linux/video0/device/../serial",
        readFile := fun p =>
          if p == "/sys/class/video4linux/video0/device/../serial" then some "D00001"
          else none }
      "D00001" =
    Except.ok (some
      { dev_name := some "/dev/video0", paths := ["/dev/video0"],
        manufacturer := "Unknown", model := "Unknown", revision := "Unknown",
        serial := "D00001" }) := by
  have h := claim_C2 (ToolResult.success "DIGIT Cam\n\t/dev/video0")
    { realpath := id,
      pathExists := fun p => p == "/sys/class/video4linux/video0/device/../serial",
      readFile := fun p =>
        if p == "/sys/class/video4linux/video0/device/../serial" then some "D00001"
        else none }
    [{ dev_name := some "/dev/video0", paths := ["/dev/video0"],
       manufacturer := "Unknown", model := "Unknown", revision := "Unknown",
       serial := "D00001" }]
    "D00001" (by rfl)
  rw [h.1, h.2.1 []
    { dev_name := some "/dev/video0", paths := ["/dev/video0"],
      manufacturer := "Unknown", model := "Unknown", revision := "Unknown",
      serial := "D00001" }
    [] rfl rfl (by intro d' hd'; simp at hd')]

/-- Claim C9: lines before any header that are blank or tab-indented are
silently ignored by the parser, and every group the parser produces is
well-formed: its name is a non-empty string and every recorded path is a
non-empty string (no line can fail to parse by construction — every line
is handled as blank, header, or indented path). -/
theorem claim_C9 :
    (∀ (ls rest : List String) (acc : List VDevice),
      (∀ l ∈ ls, pyStrip l = "" ∨ startsWithTab l = true) →
      parseLoop acc none (ls ++ rest) = parseLoop acc none rest) ∧
    (∀ (lines : List String) (g : VDevice), g ∈ parseDevices lines →
      g.name ≠ "" ∧ ∀ p ∈ g.paths, p ≠ "") := by
  constructor
  · intro ls rest acc hls
    exact parseLoop_skip_indented_no_cur rest ls acc hls
  · intro lines g hg
    exact parseLoop_wf lines [] none (by simp) (by simp) g hg

/-- Concrete run of `claim_C9`: an indented line before any header is
dropped, and the group parsed from a well-formed input is well-formed. -/
theorem claim_C9_witness :
    parseLoop [] none ["\t/dev/video9", "DIGIT X"] = parseLoop [] none ["DIGIT X"] ∧
    ((VDevice.mk "DIGIT X" ["/dev/video2"]).name ≠ "" ∧
      ∀ p ∈ (VDevice.mk "DIGIT X" ["/dev/video2"]).paths, p ≠ "") := by
  constructor
  · exact claim_C9.1 ["\t/dev/video9"] ["DIGIT X"] [] (by decide)
  · exact claim_C9.2 ["DIGIT X", "\t/dev/video2"] (VDevice.mk "DIGIT X" ["/dev/video2"])
      (by decide)

/-- Claim C10: the "Unknown" sentinel collides with lookup: when discovery
yields a record whose serial degraded to the default "Unknown",
`find_digit "Unknown"` returns the first such record instead of an absent
result. -/
theorem claim_C10 : ∀ (tool : ToolResult) (fs : Fs) (l l1 l2 : List DigitInfo)
    (d : DigitInfo),
    list_digits tool fs = Except.ok l →
    l = l1 ++ d :: l2 → d.serial = "Unknown" →
    (∀ d' ∈ l1, d'.serial ≠ "Unknown") →
    find_digit tool fs "Unknown" = Except.ok (some d) := by
  intro tool fs l l1 l2 d h hl hd hl1
  unfold find_digit
  rw [h, hl]
  show Except.ok ((l1 ++ d :: l2).find? (fun d => d.serial == "Unknown")) =
    Except.ok (some d)
  rw [find?_append_first _ l1 d l2 (by simp [hd])
    (fun x hx => by simp [hl1 x hx])]

/-- Concrete run of `claim_C10`: with no sysfs files, the single discovered
record has serial "Unknown", and `find_digit "Unknown"` returns it. -/
theorem claim_C10_witness :
    find_digit (ToolResult.success "DIGIT Cam\n\t/dev/video0") trivialFs "Unknown" =
      Except.ok (some
        { dev_name := some "/dev/video0", paths := ["/dev/video0"],
          manufacturer := "Unknown", model := "Unknown", revision := "Unknown",
          serial := "Unknown" }) :=
  claim_C10 (ToolResult.success "DIGIT Cam\n\t/dev/video0") trivialFs
    [{ dev_name := some "/dev/video0", paths := ["/dev/video0"],
       manufacturer := "Unknown", model := "Unknown", revision := "Unknown",
       serial := "Unknown" }]
    []
    []
    { dev_name := some "/dev/video0", paths := ["/dev/video0"],
      manufacturer := "Unknown", model := "Unknown", revision := "Unknown",
      serial := "Unknown" }
    (by rfl) rfl rfl (by intro d' hd'; simp at hd')

/-- Claim C3 is false as stated: a group named "DIGIT Cam" is retained, but
with no readable sysfs `product` attribute the returned record's `model`
field is the default "Unknown", which does not contain "DIGIT" (the DIGIT
filter is applied to the tool's name line, not to the record's `model`). -/
theorem claim_C3_counterexample :
    list_digits (ToolResult.success "DIGIT Cam\n\t/dev/video0") trivialFs =
      Except.ok
        [{ dev_name := some "/dev/video0", paths := ["/dev/video0"],
           manufacturer := "Unknown", model := "Unknown", revision := "Unknown",
           serial := "Unknown" }] ∧
    containsDIGIT "Unknown" = false :=
  ⟨rfl, by decide⟩


/-- Claim C3, amended: every record returned by `list_digits` is `_parse`
applied to one of the groups actually retained by the parser from the
tool's output text, and every such retained group's name line contains the
marker substring "DIGIT"; the record's `model` field itself is the sysfs
`product` value (default "Unknown") and need not contain "DIGIT". -/
theorem claim_C3 : ∀ (tool : ToolResult) (fs : Fs) (l : List DigitInfo),
    list_digits tool fs = Except.ok l →
    ∀ d ∈ l, ∃ out, tool = ToolResult.success out ∧
      ∃ g ∈ parseDevices (splitlines out),
        containsDIGIT g.name = true ∧ d = DigitHandler._parse fs g := by
  intro tool fs l h d hd
  cases tool with
  | nonZeroExit =>
    simp only [list_digits] at h
    injection h with h
    rw [← h] at hd
    simp at hd
  | missingExecutable =>
    simp [list_digits] at h
  | success out =>
    simp only [list_digits] at h
    injection h with h
    rw [← h] at hd
    rcases List.mem_map.mp hd with ⟨g, hg, rfl⟩
    exact ⟨out, rfl, g, hg, parseLoop_names _ [] none (by simp) g hg, rfl⟩

/-- Concrete run of `claim_C3`: the record discovered from a "DIGIT Cam"
header is `_parse` of a group retained from that very output, whose name
contains "DIGIT". -/
theorem claim_C3_witness :
    ∃ out, ToolResult.success "DIGIT Cam\n\t/dev/video0" = ToolResult.success out ∧
      ∃ g ∈ parseDevices (splitlines out),
        containsDIGIT g.name = true ∧
        ({ dev_name := some "/dev/video0", paths := ["/dev/video0"],
           manufacturer := "Unknown", model := "Unknown", revision := "Unknown",
           serial := "Unknown" } : DigitInfo) = DigitHandler._parse trivialFs g :=
  claim_C3 (ToolResult.success "DIGIT Cam\n\t/dev/video0") trivialFs
    [{ dev_name := some "/dev/video0", paths := ["/dev/video0"],
       manufacturer := "Unknown", model := "Unknown", revision := "Unknown",
       serial := "Unknown" }]
    (by rfl)
    { dev_name := some "/dev/video0", paths := ["/dev/video0"],
      manufacturer := "Unknown", model := "Unknown", revision := "Unknown",
      serial := "Unknown" }
    (by simp)

/-- Claim C4: every record returned by `list_digits` carries all four
identity fields as plain strings, each equal to the sentinel "Unknown"
whenever its attribute was not resolved: all four are "Unknown" when the
group had no usable primary path, and otherwise each field is either
"Unknown" or genuinely resolved — its probe was reached (no earlier
attempted read raised), its attribute file exists, its read returned
content, and the field is that content stripped.  Missing files and
raised reads alike therefore leave the "Unknown" default. -/
theorem claim_C4 : ∀ (tool : ToolResult) (fs : Fs) (l : List DigitInfo),
    list_digits tool fs = Except.ok l →
    ∀ d ∈ l,
      ((d.dev_name = none ∨ d.dev_name = some "") →
        d.serial = "Unknown" ∧ d.manufacturer = "Unknown" ∧
        d.model = "Unknown" ∧ d.revision = "Unknown") ∧
      (∀ p, d.dev_name = some p → p ≠ "" →
        (d.serial = "Unknown" ∨
          (fs.pathExists (attrPath fs p "serial") = true ∧
            ∃ c, fs.readFile (attrPath fs p "serial") = some c ∧
              d.serial = pyStrip c)) ∧
        (d.manufacturer = "Unknown" ∨
          ((fs.pathExists (attrPath fs p "serial") = true →
              fs.readFile (attrPath fs p "serial") ≠ none) ∧
            fs.pathExists (attrPath fs p "manufacturer") = true ∧
            ∃ c, fs.readFile (attrPath fs p "manufacturer") = some c ∧
              d.manufacturer = pyStrip c)) ∧
        (d.model = "Unknown" ∨
          ((fs.pathExists (attrPath fs p "serial") = true →
              fs.readFile (attrPath fs p "serial") ≠ none) ∧
            (fs.pathExists (attrPath fs p "manufacturer") = true →
              fs.readFile (attrPath fs p "manufacturer") ≠ none) ∧
            fs.pathExists (attrPath fs p "product") = true ∧
            ∃ c, fs.readFile (attrPath fs p "product") = some c ∧
              d.model = pyStrip c)) ∧
        (d.revision = "Unknown" ∨
          ((fs.pathExists (attrPath fs p "serial") = true →
              fs.readFile (attrPath fs p "serial") ≠ none) ∧
            (fs.pathExists (attrPath fs p "manufacturer") = true →
              fs.readFile (attrPath fs p "manufacturer") ≠ none) ∧
            (fs.pathExists (attrPath fs p "product") = true →
              fs.readFile (attrPath fs p "product") ≠ none) ∧
            fs.pathExists (attrPath fs p "bcdDevice") = true ∧
            ∃ c, fs.readFile (attrPath fs p "bcdDevice") = some c ∧
              d.revision = pyStrip c))) := by
  intro tool fs l h d hd
  cases tool with
  | nonZeroExit =>
    simp only [list_digits] at h
    injection h with h
    rw [← h] at hd
    simp at hd
  | missingExecutable =>
    simp [list_digits] at h
  | success out =>
    simp only [list_digits] at h
    injection h with h
    rw [← h] at hd
    rcases List.mem_map.mp hd with ⟨g, _, rfl⟩
    cases hh : g.paths.head? with
    | none =>
      constructor
      · intro _
        simp [DigitHandler._parse, hh]
      · intro p hp
        simp [DigitHandler._parse, hh] at hp
    | some p0 =>
      by_cases hp0 : p0 = ""
      · constructor
        · intro _
          simp [DigitHandler._parse, hh, hp0]
        · intro p hp hpne
          simp [DigitHandler._parse, hh, hp0] at hp
          exact absurd hp.symm hpne
      · constructor
        · intro habs
          simp [DigitHandler._parse, hh, hp0] at habs
        · intro p hp hpne
          simp only [DigitHandler._parse, hh, hp0, if_neg hp0] at hp ⊢
          injection hp with hp
          rw [← hp]
          exact ⟨sysfs_serial_cases fs p0, sysfs_manufacturer_cases fs p0,
            sysfs_model_cases fs p0, sysfs_revision_cases fs p0⟩

/-- Concrete run of `claim_C4`: with no sysfs files at all, the theorem's
per-field alternatives hold for the discovered record (each field is
"Unknown" or was genuinely resolved). -/
theorem claim_C4_witness :
    (({ dev_name := some "/dev/video0", paths := ["/dev/video0"],
        manufacturer := "Unknown", model := "Unknown", revision := "Unknown",
        serial := "Unknown" } : DigitInfo).serial = "Unknown" ∨
      (trivialFs.pathExists (attrPath trivialFs "/dev/video0" "serial") = true ∧
        ∃ c, trivialFs.readFile (attrPath trivialFs "/dev/video0" "serial") = some c ∧
          ({ dev_name := some "/dev/video0", paths := ["/dev/video0"],
             manufacturer := "Unknown", model := "Unknown", revision := "Unknown",
             serial := "Unknown" } : DigitInfo).serial = pyStrip c)) ∧
    (({ dev_name := some "/dev/video0", paths := ["/dev/video0"],
        manufacturer := "Unknown", model := "Unknown", revision := "Unknown",
        serial := "Unknown" } : DigitInfo).manufacturer = "Unknown" ∨
      ((trivialFs.pathExists (attrPath trivialFs "/dev/video0" "serial") = true →
          trivialFs.readFile (attrPath trivialFs "/dev/video0" "serial") ≠ none) ∧
        trivialFs.pathExists (attrPath trivialFs "/dev/video0" "manufacturer") = true ∧
        ∃ c, trivialFs.readFile (attrPath trivialFs "/dev/video0" "manufacturer") = some c ∧
          ({ dev_name := some "/dev/video0", paths := ["/dev/video0"],
             manufacturer := "Unknown", model := "Unknown", revision := "Unknown",
             serial := "Unknown" } : DigitInfo).manufacturer = pyStrip c)) :=
  have h := claim_C4 (ToolResult.success "DIGIT Cam\n\t/dev/video0") trivialFs
    [{ dev_name := some "/dev/video0", paths := ["/dev/video0"],
       manufacturer := "Unknown", model := "Unknown", revision := "Unknown",
       serial := "Unknown" }]
    (by rfl)
    { dev_name := some "/dev/video0", paths := ["/dev/video0"],
      manufacturer := "Unknown", model := "Unknown", revision := "Unknown",
      serial := "Unknown" }
    (by simp)
  ⟨(h.2 "/dev/video0" rfl (by decide)).1, (h.2 "/dev/video0" rfl (by decide)).2.1⟩


/-- Claim C5: the canonical one-block tool output parses to exactly one
group named "DIGIT Sensor A (usb-0000:00:14.0-1)" with paths
`["/dev/video0", "/dev/video1"]` in order, and the record built from that
group has primary device path (`dev_name`) `/dev/video0`. -/
theorem claim_C5 :
    parseDevices
      (splitlines "DIGIT Sensor A (usb-0000:00:14.0-1)\n\t/dev/video0\n\t/dev/video1") =
      [VDevice.mk "DIGIT Sensor A (usb-0000:00:14.0-1)" ["/dev/video0", "/dev/video1"]] ∧
    ∀ fs : Fs,
      (DigitHandler._parse fs
        (VDevice.mk "DIGIT Sensor A (usb-0000:00:14.0-1)"
          ["/dev/video0", "/dev/video1"])).dev_name = some "/dev/video0" :=
  ⟨by decide, fun _ => rfl⟩

/-- Claim C6: a header line whose stripped text does not contain "DIGIT"
produces no retained group: the tab-indented path lines that follow it are
dropped without being appended to any group (paths accumulate only into
the current group, and only while it is retained), and parsing such a
block emits nothing beyond what was already emitted. -/
theorem claim_C6 : ∀ (hdr : String) (ls rest : List String)
    (acc : List VDevice) (cur : Option VDevice),
    pyStrip hdr ≠ "" → startsWithTab hdr = false →
    containsDIGIT (pyStrip hdr) = false →
    (∀ l ∈ ls, startsWithTab l = true ∧ pyStrip l ≠ "") →
    parseLoop acc cur (hdr :: (ls ++ rest)) = parseLoop acc cur (hdr :: rest) ∧
    parseLoop acc cur (hdr :: ls) = acc ++ emitCur cur := by
  intro hdr ls rest acc cur hb ht hd hls
  constructor
  · rw [parseLoop, parseLoop, if_neg hb, if_neg hb]
    simp only [ht, Bool.false_eq_true, not_false_eq_true, if_true]
    exact parseLoop_skip_nonretained rest ls _ _ hd hls
  · rw [parseLoop, if_neg hb]
    simp only [ht, Bool.false_eq_true, not_false_eq_true, if_true]
    have hskip := parseLoop_skip_nonretained [] ls (acc ++ emitCur cur)
      (VDevice.mk (pyStrip hdr) []) hd hls
    rw [List.append_nil] at hskip
    rw [hskip, parseLoop]
    simp [emitCur, hd]

/-- Concrete run of `claim_C6`: a "Webcam C920" header followed by an
indented path contributes nothing; the path is appended to no group. -/
theorem claim_C6_witness :
    parseLoop [] none ["Webcam C920", "\t/dev/video5", "DIGIT X"] =
      parseLoop [] none ["Webcam C920", "DIGIT X"] ∧
    parseLoop [] none ["Webcam C920", "\t/dev/video5"] = [] :=
  have h := claim_C6 "Webcam C920" ["\t/dev/video5"] ["DIGIT X"] [] none
    (by decide) (by decide) (by decide) (by decide)
  ⟨h.1, h.2⟩

/-- Claim C7: the sysfs metadata resolver is total — for every device path
and filesystem state it returns a record with all four identity fields
(it never raises past itself); a field whose attribute file does not exist
keeps its "Unknown" default, and a field whose attribute file is read gets
the file contents stripped of surrounding whitespace (a read is attempted
for `manufacturer` / `product` / `bcdDevice` only when no earlier
attempted read raised). -/
theorem claim_C7 : ∀ (fs : Fs) (p : String),
    (∃ info : DeviceInfo, _get_device_info_from_sysfs fs p = info) ∧
    (fs.pathExists (attrPath fs p "serial") = false →
      (_get_device_info_from_sysfs fs p).serial = "Unknown") ∧
    (fs.pathExists (attrPath fs p "manufacturer") = false →
      (_get_device_info_from_sysfs fs p).manufacturer = "Unknown") ∧
    (fs.pathExists (attrPath fs p "product") = false →
      (_get_device_info_from_sysfs fs p).model = "Unknown") ∧
    (fs.pathExists (attrPath fs p "bcdDevice") = false →
      (_get_device_info_from_sysfs fs p).revision = "Unknown") ∧
    (∀ c, fs.pathExists (attrPath fs p "serial") = true →
      fs.readFile (attrPath fs p "serial") = some c →
      (_get_device_info_from_sysfs fs p).serial = pyStrip c) ∧
    (∀ c,
      (fs.pathExists (attrPath fs p "serial") = true →
        fs.readFile (attrPath fs p "serial") ≠ none) →
      fs.pathExists (attrPath fs p "manufacturer") = true →
      fs.readFile (attrPath fs p "manufacturer") = some c →
      (_get_device_info_from_sysfs fs p).manufacturer = pyStrip c) ∧
    (∀ c,
      (fs.pathExists (attrPath fs p "serial") = true →
        fs.readFile (attrPath fs p "serial") ≠ none) →
      (fs.pathExists (attrPath fs p "manufacturer") = true →
        fs.readFile (attrPath fs p "manufacturer") ≠ none) →
      fs.pathExists (attrPath fs p "product") = true →
      fs.readFile (attrPath fs p "product") = some c →
      (_get_device_info_from_sysfs fs p).model = pyStrip c) ∧
    (∀ c,
      (fs.pathExists (attrPath fs p "serial") = true →
        fs.readFile (attrPath fs p "serial") ≠ none) →
      (fs.pathExists (attrPath fs p "manufacturer") = true →
        fs.readFile (attrPath fs p "manufacturer") ≠ none) →
      (fs.pathExists (attrPath fs p "product") = true →
        fs.readFile (attrPath fs p "product") ≠ none) →
      fs.pathExists (attrPath fs p "bcdDevice") = true →
      fs.readFile (attrPath fs p "bcdDevice") = some c →
      (_get_device_info_from_sysfs fs p).revision = pyStrip c) := by
  intro fs p
  refine ⟨⟨_, rfl⟩, ?_, ?_, ?_, ?_, ?_, ?_, ?_, ?_⟩
  · exact fun h => sysfs_serial_unres h
  · exact fun h => sysfs_manufacturer_unres h
  · exact fun h => sysfs_model_unres h
  · exact fun h => sysfs_revision_unres h
  · exact fun c he hr => sysfs_serial_read he hr
  · exact fun c hs he hr => sysfs_manufacturer_read hs he hr
  · exact fun c hs hm he hr => sysfs_model_read hs hm he hr
  · exact fun c hs hm hp he hr => sysfs_revision_read hs hm hp he hr

/-- Concrete run of `claim_C7`: a filesystem where every attribute file
exists and reads as " S1 " yields stripped values, e.g. the serial field
becomes "S1". -/
theorem claim_C7_witness :
    (_get_device_info_from_sysfs
      { realpath := id, pathExists := fun _ => true,
        readFile := fun _ => some " S1 " }
      "/dev/video0").serial = pyStrip " S1 " ∧
    (_get_device_info_from_sysfs trivialFs "/dev/video0").serial = "Unknown" :=
  ⟨(claim_C7
      { realpath := id, pathExists := fun _ => true,
        readFile := fun _ => some " S1 " }
      "/dev/video0").2.2.2.2.2.1 " S1 " rfl rfl,
   (claim_C7 trivialFs "/dev/video0").2.1 rfl⟩

/-- Claim C8 (spec-modelled variant B resolver): when the `serial`
attribute file is absent at the expected location and at one level up, but
present two directory levels up, the upward traversal returns that
higher-level (stripped) serial value instead of "Unknown". -/
theorem claim_C8 : ∀ (fs : Fs) (base : List String) (c1 c2 v : String),
    base ≠ [] →
    fs.pathExists (String.intercalate "/" (base ++ [c1, c2]) ++ "/serial") = false →
    fs.pathExists (String.intercalate "/" (base ++ [c1]) ++ "/serial") = false →
    fs.pathExists (String.intercalate "/" base ++ "/serial") = true →
    fs.readFile (String.intercalate "/" base ++ "/serial") = some v →
    findSerialUpward fs (base ++ [c1, c2]) = pyStrip v := by
  intro fs base c1 c2 v hne h2 h1 h0 hr
  obtain ⟨hd, tl, hrev⟩ : ∃ hd tl, base.reverse = hd :: tl := by
    cases hb : base.reverse with
    | nil =>
      exact absurd (by simpa using congrArg List.reverse hb) hne
    | cons hd tl => exact ⟨hd, tl, rfl⟩
  unfold findSerialUpward
  rw [show (base ++ [c1, c2]).reverse = c2 :: c1 :: base.reverse by simp]
  rw [findSerialUpwardRev]
  simp only [List.reverse_cons, List.reverse_reverse, List.append_assoc,
    List.singleton_append]
  rw [h2]
  simp only [Bool.false_eq_true, if_false]
  rw [findSerialUpwardRev]
  simp only [List.reverse_cons, List.reverse_reverse]
  rw [h1]
  simp only [Bool.false_eq_true, if_false]
  rw [hrev, findSerialUpwardRev]
  rw [show (hd :: tl).reverse = base by rw [← hrev, List.reverse_reverse]]
  rw [h0]
  simp only [if_true]
  rw [hr]

/-- Concrete run of `claim_C8`: `serial` is missing at
`/sys/devices/usb1/a/b` and `/sys/devices/usb1/a` but present at
`/sys/devices/usb1`; the traversal returns its stripped content. -/
theorem claim_C8_witness :
    findSerialUpward
      { realpath := id,
        pathExists := fun p => p == "/sys/devices/usb1/serial",
        readFile := fun p =>
          if p == "/sys/devices/usb1/serial" then some " ABC123 " else none }
      ["", "sys", "devices", "usb1", "a", "b"] = pyStrip " ABC123 " :=
  claim_C8
    { realpath := id,
      pathExists := fun p => p == "/sys/devices/usb1/serial",
      readFile := fun p =>
        if p == "/sys/devices/usb1/serial" then some " ABC123 " else none }
    ["", "sys", "devices", "usb1"] "a" "b" " ABC123 "
    (by decide) (by decide) (by decide) (by decide) (by decide)
